import Mathlib

/-!
Verification development for the Nasdaq 100 analysis dashboard
(`src/js/charts.js`, `src/js/stock-detail.js`, and the unnamed dashboard
module containing `applyFilters`).

Embedding conventions:
* JavaScript numbers are modelled as rationals (`ℚ`); every numeric value the
  claims exercise is exactly representable, and the arithmetic the code
  performs on them (comparison, scaling by powers of ten, `toFixed`) agrees
  with exact rational arithmetic at those inputs.
* `null`/`undefined` are modelled with `Option` (or the `JsVal.null`
  constructor where a field is read generically by the sort comparator).
* Code that can throw a `TypeError` (dereferencing a missing DOM container or
  a missing object field) is modelled in `Except Unit`, `.error ()` standing
  for the thrown exception.
* The DOM is an association list from element id to its current innerHTML.
* String lowering models `String.prototype.toLowerCase` on the ASCII
  fragment, which is the fragment the data uses.
-/

namespace Nasdaq

/-- JS `String.prototype.toLowerCase`, ASCII fragment. -/
def jsToLower (s : String) : String :=
  ⟨s.data.map Char.toLower⟩

/-- Helper for substring search: does `needle` occur at the head of `hay`? -/
def startsWithList (needle hay : List Char) : Bool :=
  match needle, hay with
  | [], _ => true
  | _ :: _, [] => false
  | a :: as, b :: bs => a == b && startsWithList as bs

/-- Helper for substring search: does `needle` occur anywhere in `hay`? -/
def subListSearch (needle : List Char) : List Char → Bool
  | [] => startsWithList needle []
  | c :: rest => startsWithList needle (c :: rest) || subListSearch needle rest

/-- JS `hay.includes(needle)` (substring containment on code units). -/
def strIncludes (hay needle : String) : Bool :=
  subListSearch needle.data hay.data

/-- Left-pad a string with zeros to length `n`. -/
def padLeftZeros (s : String) (n : Nat) : String :=
  if s.length ≥ n then s
  else ⟨List.replicate (n - s.length) '0' ++ s.data⟩

/-- Render the natural number `n` as a fixed-point decimal with `d` fraction
digits (`n` is the value scaled by `10 ^ d`). -/
def decimalString (n : Nat) (d : Nat) : String :=
  if d = 0 then toString n
  else toString (n / 10 ^ d) ++ "." ++ padLeftZeros (toString (n % 10 ^ d)) d

/-- JS `Number.prototype.toFixed(d)` on exact rationals: the sign of the
input followed by the magnitude rounded to `d` fraction digits, ties rounded
up in magnitude (ECMA-262 ToFixed picks the larger candidate). -/
def jsToFixed (q : ℚ) (d : Nat) : String :=
  let n : Nat := (Int.floor (|q| * (10 : ℚ) ^ d + 1 / 2)).toNat
  (if q < 0 then "-" else "") ++ decimalString n d

/-- Group the decimal digits of a natural number in threes with commas, as
`toLocaleString("en-US")` does for the integer part. -/
def groupedNatString (n : Nat) : String :=
  if _h : n < 1000 then toString n
  else groupedNatString (n / 1000) ++ "," ++ padLeftZeros (toString (n % 1000)) 3
  decreasing_by
    exact Nat.div_lt_self (by omega) (by omega)

/-- Drop trailing zero characters (used for default locale fraction digits). -/
def stripTrailingZeroChars (s : String) : String :=
  ⟨(s.data.reverse.dropWhile (· == '0')).reverse⟩

/-- JS `num.toLocaleString("en-US")` with no options: grouped integer part,
zero to three fraction digits, rounded to nearest (half away from zero). -/
def jsLocaleDefault (q : ℚ) : String :=
  let n : Nat := (Int.floor (|q| * 1000 + 1 / 2)).toNat
  let fracPart := n % 1000
  (if q < 0 then "-" else "") ++ groupedNatString (n / 1000) ++
    (if fracPart = 0 then ""
     else "." ++ stripTrailingZeroChars (padLeftZeros (toString fracPart) 3))

/-- JS `num.toLocaleString("en-US", { minimumFractionDigits: d,
maximumFractionDigits: d })`: grouped integer part and exactly `d` fraction
digits. -/
def jsLocaleFixed (q : ℚ) (d : Nat) : String :=
  let n : Nat := (Int.floor (|q| * (10 : ℚ) ^ d + 1 / 2)).toNat
  (if q < 0 then "-" else "") ++
    (if d = 0 then groupedNatString n
     else groupedNatString (n / 10 ^ d) ++ "." ++
       padLeftZeros (toString (n % 10 ^ d)) d)

/-- JS `Number.prototype.toString()` restricted to the fragment the code can
reach with it: integers print exactly; non-integral values print with the
fraction digits of the rounded-to-20-places expansion, trailing zeros
stripped (an approximation of shortest-round-trip printing, unreachable by
the claims). -/
def jsNumToString (q : ℚ) : String :=
  if q.den = 1 then toString q.num
  else
    let n : Nat := (Int.floor (|q| * (10 : ℚ) ^ 20 + 1 / 2)).toNat
    (if q < 0 then "-" else "") ++ toString (n / 10 ^ 20) ++ "." ++
      stripTrailingZeroChars (padLeftZeros (toString (n % 10 ^ 20)) 20)

/-- The `COLORS` palette object of `charts.js`. -/
structure Palette where
  gain : String
  loss : String
  accent : String
  grid : String
  text : String
  textLight : String
  bg : String
  ma5 : String
  ma10 : String
  ma20 : String
  ma50 : String
  ma200 : String
  bbUpper : String
  bbLower : String
  bbMid : String
  volume : String
  volumeUp : String
  volumeDown : String
deriving DecidableEq

/-- `COLORS` from `charts.js` lines 5-24. -/
def COLORS : Palette :=
  { gain := "#22c55e"
    loss := "#ef4444"
    accent := "#3b82f6"
    grid := "#1e293b"
    text := "#6b7280"
    textLight := "#9ca3af"
    bg := "#111827"
    ma5 := "#f59e0b"
    ma10 := "#8b5cf6"
    ma20 := "#3b82f6"
    ma50 := "#ec4899"
    ma200 := "#14b8a6"
    bbUpper := "rgba(59, 130, 246, 0.3)"
    bbLower := "rgba(59, 130, 246, 0.3)"
    bbMid := "#3b82f6"
    volume := "rgba(59, 130, 246, 0.3)"
    volumeUp := "rgba(34, 197, 94, 0.4)"
    volumeDown := "rgba(239, 68, 68, 0.4)" }

/-- `formatNumber` from `charts.js` lines 33-36 (`null`/`undefined` returns
the dash; otherwise `toLocaleString` with fixed fraction digits, default 2). -/
def formatNumber (num : Option ℚ) (decimals : Nat := 2) : String :=
  match num with
  | none => "-"
  | some q => jsLocaleFixed q decimals

/-- `formatPercent` from `charts.js` lines 38-42. -/
def formatPercent (num : Option ℚ) : String :=
  match num with
  | none => "-"
  | some q => (if q ≥ 0 then "+" else "") ++ jsToFixed (q * 100) 2 ++ "%"

/-- `formatMarketCap` from `charts.js` lines 44-50. -/
def formatMarketCap (num : Option ℚ) : String :=
  match num with
  | none => "-"
  | some q =>
    if q ≥ 10 ^ 12 then "$" ++ jsToFixed (q / 10 ^ 12) 2 ++ "T"
    else if q ≥ 10 ^ 9 then "$" ++ jsToFixed (q / 10 ^ 9) 2 ++ "B"
    else if q ≥ 10 ^ 6 then "$" ++ jsToFixed (q / 10 ^ 6) 2 ++ "M"
    else "$" ++ jsLocaleDefault q

/-- `formatVolume` from `charts.js` lines 52-58. -/
def formatVolume (num : Option ℚ) : String :=
  match num with
  | none => "-"
  | some q =>
    if q ≥ 10 ^ 9 then jsToFixed (q / 10 ^ 9) 2 ++ "B"
    else if q ≥ 10 ^ 6 then jsToFixed (q / 10 ^ 6) 2 ++ "M"
    else if q ≥ 10 ^ 3 then jsToFixed (q / 10 ^ 3) 1 ++ "K"
    else jsNumToString q

/-- `colorForValue` from `charts.js` lines 60-63. -/
def colorForValue (val : Option ℚ) : String :=
  match val with
  | none => COLORS.text
  | some v => if v ≥ 0 then COLORS.gain else COLORS.loss

/-- `rsiColor` from `charts.js` lines 65-70. -/
def rsiColor (rsi : Option ℚ) : String :=
  match rsi with
  | none => COLORS.text
  | some r => if r ≥ 70 then COLORS.loss else if r ≤ 30 then COLORS.gain
      else COLORS.textLight

/-- `rsiLabel` from `charts.js` lines 72-77. -/
def rsiLabel (rsi : Option ℚ) : String :=
  match rsi with
  | none => "N/A"
  | some r => if r ≥ 70 then "Overbought" else if r ≤ 30 then "Oversold"
      else "Neutral"

/-! ## The dashboard data model and the sort comparator of `applyFilters` -/

/-- A value read off a stock summary record by the dynamic field access
`a[field]` in the sort comparator: a number, a string, a boolean, or
`null`/`undefined` (absent fields read as `undefined`; both `null` and
`undefined` are the comparator's `va == null` case). -/
inductive JsVal where
  | null : JsVal
  | num : ℚ → JsVal
  | str : String → JsVal
  | bool : Bool → JsVal
deriving DecidableEq

/-- Is the value a string? -/
def JsVal.isStr : JsVal → Bool
  | .str _ => true
  | _ => false

/-- A comparator operand after the comparator has substituted
`Infinity`/`-Infinity` for `null`: a number, `±Infinity`, or a string. -/
inductive ExtVal where
  | num : ℚ → ExtVal
  | str : String → ExtVal
  | posInf : ExtVal
  | negInf : ExtVal
deriving DecidableEq

/-- An extended number: finite, `+Infinity` or `-Infinity` (`NaN` is the
`none` of `Option XNum`). -/
inductive XNum where
  | fin : ℚ → XNum
  | pinf : XNum
  | ninf : XNum
deriving DecidableEq

/-- Strict greater-than on extended numbers, as JS `>` compares them. -/
def xgt : XNum → XNum → Bool
  | .fin a, .fin b => decide (b < a)
  | .fin _, .pinf => false
  | .fin _, .ninf => true
  | .pinf, .fin _ => true
  | .pinf, .pinf => false
  | .pinf, .ninf => true
  | .ninf, _ => false

/-- JS ToNumber on a string, decimal-numeral fragment: leading and trailing
spaces are trimmed, the empty string is `0`, an optional sign followed by
decimal digits with an optional fraction parses to its value, anything else
is `NaN` (`none`). -/
def strToNum (s : String) : Option ℚ :=
  let t := ((s.data.dropWhile (· == ' ')).reverse.dropWhile (· == ' ')).reverse
  match t with
  | [] => some 0
  | _ =>
    let signAndRest : ℚ × List Char :=
      match t with
      | '-' :: r => (-1, r)
      | '+' :: r => (1, r)
      | r => (1, r)
    let sign := signAndRest.1
    let rest := signAndRest.2
    let intDigits := rest.takeWhile Char.isDigit
    let rest2 := rest.drop intDigits.length
    let digitsVal : List Char → Nat :=
      fun l => l.foldl (fun n c => n * 10 + (c.toNat - 48)) 0
    match rest2 with
    | [] => if intDigits.isEmpty then none else some (sign * digitsVal intDigits)
    | '.' :: fr =>
      let fracDigits := fr.takeWhile Char.isDigit
      if ¬ (fr.drop fracDigits.length).isEmpty then none
      else if intDigits.isEmpty && fracDigits.isEmpty then none
      else some (sign *
        (digitsVal intDigits + digitsVal fracDigits / 10 ^ fracDigits.length))
    | _ => none

/-- Convert a comparator operand to an extended number, as JS ToNumber does
when `>`/`<` fall back to numeric comparison; `none` is `NaN`. -/
def ExtVal.toXNum : ExtVal → Option XNum
  | .num q => some (.fin q)
  | .posInf => some .pinf
  | .negInf => some .ninf
  | .str s => (strToNum s).map .fin

/-- JS `va > vb` on comparator operands: two strings compare
lexicographically by code unit; otherwise both sides convert to numbers and
any `NaN` makes the comparison false. -/
def jsGt (a b : ExtVal) : Bool :=
  match a, b with
  | .str x, .str y => decide (y < x)
  | _, _ =>
    match a.toXNum, b.toXNum with
    | some x, some y => xgt x y
    | _, _ => false

/-- JS `va < vb` on comparator operands. -/
def jsLt (a b : ExtVal) : Bool :=
  match a, b with
  | .str x, .str y => decide (x < y)
  | _, _ =>
    match a.toXNum, b.toXNum with
    | some x, some y => xgt y x
    | _, _ => false

/-- A stock summary record (schema of `summary.json`'s `stocks` entries). -/
structure Stock where
  symbol : String
  name : Option String
  sector : Option String
  currentPrice : Option ℚ
  lastChange : Option ℚ
  ytdReturn : Option ℚ
  rsi : Option ℚ
  macdSignal : Option String
  aboveMa50 : Option Bool
  aboveMa200 : Option Bool
deriving DecidableEq

/-- Dynamic field access `a[field]` as the comparator of `applyFilters`
performs it; a field that is not on the record reads as `undefined`
(`JsVal.null`). -/
def Stock.getField (s : Stock) : String → JsVal
  | "symbol" => .str s.symbol
  | "name" => match s.name with | some v => .str v | none => .null
  | "sector" => match s.sector with | some v => .str v | none => .null
  | "currentPrice" => match s.currentPrice with | some v => .num v | none => .null
  | "lastChange" => match s.lastChange with | some v => .num v | none => .null
  | "ytdReturn" => match s.ytdReturn with | some v => .num v | none => .null
  | "rsi" => match s.rsi with | some v => .num v | none => .null
  | "macdSignal" => match s.macdSignal with | some v => .str v | none => .null
  | "aboveMa50" => match s.aboveMa50 with | some v => .bool v | none => .null
  | "aboveMa200" => match s.aboveMa200 with | some v => .bool v | none => .null
  | _ => .null

/-- Step `if (typeof va === "string") va = va.toLowerCase()` of the
comparator. -/
def lowerVal : JsVal → JsVal
  | .str s => .str (jsToLower s)
  | v => v

/-- Step `if (va == null) va = dir === "asc" ? Infinity : -Infinity` of the
comparator (booleans pass through and later convert to 0/1, numbers and
strings pass through). -/
def substNull (asc : Bool) : JsVal → ExtVal
  | .null => if asc then .posInf else .negInf
  | .num q => .num q
  | .str s => .str s
  | .bool b => .num (if b then 1 else 0)

/-- The comparator of `applyFilters` (dashboard module lines 184-191):
`dir === "asc" ? (va > vb ? 1 : -1) : (va < vb ? 1 : -1)` after lowering
strings and substituting infinities for `null`. It never returns 0. -/
def jsCmp (field : String) (asc : Bool) (a b : Stock) : Int :=
  let va := substNull asc (lowerVal (a.getField field))
  let vb := substNull asc (lowerVal (b.getField field))
  if asc then (if jsGt va vb then 1 else -1)
  else (if jsLt va vb then 1 else -1)

/-- The "sorts no later than" relation induced by the comparator: `a` may be
placed before `b` when the comparator does not demand the swap. The file
models `Array.prototype.sort` as a stable insertion sort over this relation;
for a consistent comparator this is the unique stable-sorted order required
by ECMA-262, and for an inconsistent comparator (which ECMA-262 leaves
implementation-defined) it fixes one deterministic outcome. -/
def sortLe (field : String) (asc : Bool) (a b : Stock) : Prop :=
  jsCmp field asc a b ≤ 0

instance (field : String) (asc : Bool) : DecidableRel (sortLe field asc) :=
  fun a b => inferInstanceAs (Decidable (jsCmp field asc a b ≤ 0))

/-- Split a character list on a separator character; the accumulator holds
the current (reversed) segment. -/
def splitCharAux (sep : Char) : List Char → List Char → List (List Char)
  | [], acc => [acc.reverse]
  | c :: rest, acc =>
    if c == sep then acc.reverse :: splitCharAux sep rest []
    else splitCharAux sep rest (c :: acc)

/-- JS `s.split(sep)` for a one-character separator (the code only splits
on `"-"`): always returns at least one segment, and the empty string splits
to `[""]`. -/
def jsSplit (s : String) (sep : Char) : List String :=
  (splitCharAux sep s.data []).map (fun l => ⟨l⟩)

/-- The field component of the `sortBy` control value
(`const [field, dir] = sortBy.split("-")`, first component; a split always
has one). -/
def sortField (sortBy : String) : String :=
  (jsSplit sortBy '-').headD ""

/-- The direction component of the `sortBy` control value: `true` exactly
when the second component of the split is the string `asc` (a missing
component is `undefined`, which is not `=== "asc"`). -/
def sortAsc (sortBy : String) : Bool :=
  (jsSplit sortBy '-').get? 1 == some "asc"

/-! ## The filter pipeline of `applyFilters` -/

/-- The search predicate of `applyFilters` (lines 170-173): case-insensitive
substring match of the already-lowered search text against the symbol or the
name (a missing name is the empty string, `s.name || ""`). -/
def matchesSearch (search : String) (s : Stock) : Bool :=
  strIncludes (jsToLower s.symbol) search ||
    strIncludes (jsToLower (s.name.getD "")) search

/-- The three conditional filters of `applyFilters` (lines 167-180): the
search filter runs only when the lowered search text is non-empty, the
sector and signal filters only when their criterion is non-empty; each is a
plain `Array.prototype.filter`. -/
def filterStage (stocks : List Stock) (searchRaw sector signal : String) :
    List Stock :=
  let search := jsToLower searchRaw
  let f1 := if search = "" then stocks else stocks.filter (matchesSearch search)
  let f2 := if sector = "" then f1
    else f1.filter (fun s => decide (s.sector = some sector))
  if signal = "" then f2
  else f2.filter (fun s => decide (s.macdSignal = some signal))

/-- The list computation of `applyFilters` (dashboard module lines 160-191):
copy the stock list, apply the three filters, then sort with the comparator.
The DOM reads that supply the four criteria are passed in as parameters, and
the side-effecting tail of the function (chart disposal and re-render) is
modelled separately by `applyFiltersStep`. -/
def applyFiltersList (stocks : List Stock)
    (searchRaw sector signal sortBy : String) : List Stock :=
  List.insertionSort (sortLe (sortField sortBy) (sortAsc sortBy))
    (filterStage stocks searchRaw sector signal)

/-- The nulls-sort-last property claimed for the sorted output: no record
with a `null` value for the field precedes a record with a non-null value,
i.e. once a `null`-valued record appears every later record is also
`null`-valued. -/
def NullsLast (field : String) (l : List Stock) : Prop :=
  l.Pairwise (fun a b => a.getField field = .null → b.getField field = .null)

instance (field : String) (l : List Stock) : Decidable (NullsLast field l) :=
  inferInstanceAs (Decidable (l.Pairwise _))

/-- The `ytdReturn` sort key with `null` reading as bottom, matching the
comparator's `-Infinity` substitution in descending direction. -/
def ytdKey (s : Stock) : WithBot ℚ :=
  match s.ytdReturn with
  | none => ⊥
  | some q => (q : WithBot ℚ)

/-! ## Summary document and DOM model -/

/-- A sector's `bestPerformer` field: either a bare symbol string or an
object carrying a `symbol` property (both shapes occur; the renderer
distinguishes them with `typeof`). -/
inductive BestPerformer where
  | plain : String → BestPerformer
  | detailed : String → BestPerformer
deriving DecidableEq

/-- One entry of `sectorStats`. -/
structure SectorStat where
  count : Nat
  avgYtdReturn : ℚ
  bestPerformer : BestPerformer
deriving DecidableEq

/-- The `marketOverview` object of the summary document. -/
structure MarketOverview where
  totalStocks : Nat
  avgYtdReturn : Option ℚ
  medianYtdReturn : Option ℚ
  bullishCount : Nat
  bearishCount : Nat
  aboveMa50Count : Nat
  aboveMa200Count : Nat
  analysisDate : Option String
deriving DecidableEq

/-- The `rankings` object of the summary document. -/
structure Rankings where
  topGainers : Option (List Stock)
  topLosers : Option (List Stock)

/-- The summary document (`data/summary.json`). Sub-objects the code guards
with truthiness checks are `Option`; `sectorStats` keeps the object's
insertion order as an association list (`Object.entries` order). -/
structure Summary where
  marketOverview : Option MarketOverview
  sectorStats : Option (List (String × SectorStat))
  rankings : Option Rankings
  stocks : Option (List Stock)

/-- The DOM fragment the pages touch: an association list from element id to
its current innerHTML. An id absent from the list is an element missing from
the document (`getElementById` returns `null`). -/
def Doc := List (String × String)

/-- `document.getElementById(id)` followed by reading the stored markup:
the first entry with the id, `none` when the element is absent. -/
def domGet : Doc → String → Option String
  | [], _ => none
  | p :: rest, id => if p.1 = id then some p.2 else domGet rest id

/-- Assign `innerHTML` of the element `id` (no change to the association
list if the id is absent; callers model the null dereference before calling
this). -/
def domSet : Doc → String → String → Doc
  | [], _, _ => []
  | p :: rest, id, html =>
    (if p.1 = id then (p.1, html) else p) :: domSet rest id html

/-- Write `innerHTML` of a container, throwing (`.error ()`) when the
container element is absent, as `container.innerHTML = ...` does on `null`. -/
def setOrThrow (doc : Doc) (id html : String) : Except Unit Doc :=
  match domGet doc id with
  | none => .error ()
  | some _ => .ok (domSet doc id html)

/-! ## Dashboard renderers (markup is reproduced with whitespace normalized;
all data dependencies and control flow follow the source) -/

/-- One metric card of `renderOverviewCards` (template at lines 48-53): the
value color falls back to `#f9fafb` when the card's color is the empty
string (`c.color || "#f9fafb"`). -/
def metricCardDiv (label value color : String) : String :=
  "<div class=\"metric-card\"><div class=\"label\">" ++ label ++
    "</div><div class=\"value\" style=\"color: " ++
    (if color = "" then "#f9fafb" else color) ++ "\">" ++ value ++
    "</div></div>"

/-- The six overview cards (lines 39-46). -/
def overviewCards (o : MarketOverview) : List (String × String × String) :=
  [ ("Total Stocks", toString o.totalStocks, ""),
    ("Avg YTD Return", formatPercent o.avgYtdReturn, colorForValue o.avgYtdReturn),
    ("Median YTD", formatPercent o.medianYtdReturn, colorForValue o.medianYtdReturn),
    ("Bullish / Bearish", toString o.bullishCount ++ " / " ++ toString o.bearishCount, ""),
    ("Above MA50", toString o.aboveMa50Count ++ " / " ++ toString o.totalStocks, ""),
    ("Above MA200", toString o.aboveMa200Count ++ " / " ++ toString o.totalStocks, "") ]

/-- `renderOverviewCards` (lines 36-54). It dereferences
`summary.marketOverview` while building the cards (throws when absent) and
then assigns the container's innerHTML (throws when the container is
absent); it performs no null check on either. -/
def renderOverviewCards (summary : Summary) (doc : Doc) : Except Unit Doc :=
  match summary.marketOverview with
  | none => .error ()
  | some o =>
    setOrThrow doc "overview-cards"
      (String.join ((overviewCards o).map
        (fun c => metricCardDiv c.1 c.2.1 c.2.2)))

/-- One sector tile of the heatmap (lines 63-75). -/
def sectorTileHTML (sector : String) (stats : SectorStat) : String :=
  let pct := stats.avgYtdReturn
  let color := if pct ≥ 0 then COLORS.gain else COLORS.loss
  let bgOpacity := min (|pct| * 3) (4 / 10)
  let bgColor := if pct ≥ 0 then "rgba(34, 197, 94, " ++ jsNumToString bgOpacity ++ ")"
    else "rgba(239, 68, 68, " ++ jsNumToString bgOpacity ++ ")"
  let best := match stats.bestPerformer with
    | .plain s => s
    | .detailed s => s
  "<div class=\"sector-tile\" style=\"background: " ++ bgColor ++
    "; border: 1px solid " ++ color ++ "30\"><div class=\"text-xs text-gray-400\">" ++
    sector ++ "</div><div class=\"text-lg font-bold\" style=\"color: " ++ color ++
    "\">" ++ formatPercent (some pct) ++
    "</div><div class=\"text-xs text-gray-500\">" ++ toString stats.count ++
    " stocks | Best: " ++ best ++ "</div></div>"

/-- `renderSectorHeatmap` (lines 56-63): the container is fetched first
(never throws), the function returns before touching it when `sectorStats`
is absent, and otherwise sorts the sectors by descending average YTD return
(the numeric comparator `b - a`, consistent, hence the stable sorted order)
and writes the tiles. -/
def renderSectorHeatmap (summary : Summary) (doc : Doc) : Except Unit Doc :=
  match summary.sectorStats with
  | none => .ok doc
  | some stats =>
    let sorted := List.insertionSort
      (fun a b : String × SectorStat => b.2.avgYtdReturn ≤ a.2.avgYtdReturn) stats
    setOrThrow doc "sector-heatmap"
      (String.join (sorted.map (fun p => sectorTileHTML p.1 p.2)))

/-- One row of the stock table (lines 89-104). The RSI class reproduces the
JS coercion: `s.rsi <= 30` is `true` when `s.rsi` is `null` (ToNumber(null)
is 0), so a missing RSI is classed oversold while displaying the dash. -/
def stockRowHTML (idx : Nat) (s : Stock) : String :=
  let ytdColor := colorForValue s.ytdReturn
  let changeColor := colorForValue s.lastChange
  let signalClass := if s.macdSignal = some "bullish" then "badge-bullish"
    else if s.macdSignal = some "bearish" then "badge-bearish" else "badge-neutral"
  let ma50Class := match s.aboveMa50 with
    | some true => "ma-above" | some false => "ma-below" | none => "ma-unknown"
  let ma200Class := match s.aboveMa200 with
    | some true => "ma-above" | some false => "ma-below" | none => "ma-unknown"
  let rsiClass := match s.rsi with
    | some r => if r ≥ 70 then "rsi-overbought"
        else if r ≤ 30 then "rsi-oversold" else "rsi-neutral"
    | none => "rsi-oversold"
  "<tr class=\"border-b border-terminal-border\" onclick=\"window.location.href=(stock.html?symbol=" ++
    s.symbol ++ ")\"><td>" ++ toString (idx + 1) ++ "</td><td>" ++ s.symbol ++
    "</td><td>" ++ s.name.getD "" ++ "</td><td>" ++ s.sector.getD "" ++
    "</td><td>$" ++ formatNumber s.currentPrice ++
    "</td><td style=\"color: " ++ changeColor ++ "\">" ++ formatPercent s.lastChange ++
    "</td><td style=\"color: " ++ ytdColor ++ "\">" ++ formatPercent s.ytdReturn ++
    "</td><td class=\"" ++ rsiClass ++ "\">" ++
    (match s.rsi with | some r => jsToFixed r 1 | none => "-") ++
    "</td><td><span class=\"" ++ signalClass ++ "\">" ++ s.macdSignal.getD "-" ++
    "</span></td><td class=\"" ++ ma50Class ++ "\">" ++
    (match s.aboveMa50 with | some true => "Above" | some false => "Below" | none => "-") ++
    "</td><td class=\"" ++ ma200Class ++ "\">" ++
    (match s.aboveMa200 with | some true => "Above" | some false => "Below" | none => "-") ++
    "</td><td><div class=\"sparkline-container\" id=\"spark-" ++ s.symbol ++
    "\"></div></td></tr>"

/-- The DOM-writing half of `renderStockTable` (lines 79-105): assigns the
rows into the table body, throwing when the `stock-table-body` element is
absent (`tbody.innerHTML` with `tbody === null`). -/
def renderStockTableDoc (stocks : List Stock) (doc : Doc) : Except Unit Doc :=
  setOrThrow doc "stock-table-body"
    (String.join ((stocks.enum.map (fun p => stockRowHTML p.1 p.2))))

/-- One performer row (lines 130-138). A zero maximum makes the bar width a
division by zero; the claims never reach that corner (ℚ division by zero is
zero here, JS would print NaN). -/
def performerRowHTML (maxAbs : ℚ) (isGainer : Bool) (s : Stock) : String :=
  let color := if isGainer then COLORS.gain else COLORS.loss
  let barWidth := jsToFixed (|(s.ytdReturn.getD 0)| / maxAbs * 100) 1
  "<div class=\"performer-row cursor-pointer\" onclick=\"window.location.href=(stock.html?symbol=" ++
    s.symbol ++ ")\"><span class=\"text-white font-bold w-16 text-xs\">" ++ s.symbol ++
    "</span><div class=\"flex-1\"><div class=\"performer-bar\" style=\"width: " ++
    barWidth ++ "%; background: " ++ color ++
    "\"></div></div><span class=\"font-mono text-xs font-bold w-20 text-right\" style=\"color: " ++
    color ++ "\">" ++ formatPercent s.ytdReturn ++ "</span></div>"

/-- The inner `renderList` of `renderPerformers` (lines 122-140): the
container is fetched first (never throws), an absent or empty list returns
before touching it, and otherwise the rows are written (throwing when the
container is absent). -/
def renderPerformerList (containerId : String) (stocks : Option (List Stock))
    (isGainer : Bool) (doc : Doc) : Except Unit Doc :=
  match stocks with
  | none => .ok doc
  | some l =>
    if l.isEmpty then .ok doc
    else
      let maxAbs := (l.map (fun s => |(s.ytdReturn.getD 0)|)).foldr max 0
      setOrThrow doc containerId
        (String.join (l.map (performerRowHTML maxAbs isGainer)))

/-- `renderPerformers` (lines 121-146): when `summary.rankings` is present,
render the gainers list then the losers list. -/
def renderPerformers (summary : Summary) (doc : Doc) : Except Unit Doc :=
  match summary.rankings with
  | none => .ok doc
  | some r =>
    match renderPerformerList "top-gainers" r.topGainers true doc with
    | .error e => .error e
    | .ok doc2 => renderPerformerList "top-losers" r.topLosers false doc2

/-! ## Per-symbol detail documents and the chart adapter -/

/-- One entry of `priceHistory`. -/
structure Bar where
  date : String
  «open» : ℚ
  high : ℚ
  low : ℚ
  close : ℚ
  volume : ℚ
deriving DecidableEq

/-- The `macd` indicator series. -/
structure MacdData where
  macd : List ℚ
  signal : List ℚ
  histogram : List ℚ
deriving DecidableEq

/-- The `bollinger` indicator series. -/
structure BollingerData where
  upper : List ℚ
  middle : List ℚ
  lower : List ℚ
deriving DecidableEq

/-- The `indicators` object of a detail document; every series is optional
(the code guards each with a truthiness check; an empty array is truthy and
therefore `some []`). -/
structure Indicators where
  ma5 : Option (List ℚ)
  ma10 : Option (List ℚ)
  ma20 : Option (List ℚ)
  ma50 : Option (List ℚ)
  ma200 : Option (List ℚ)
  rsi : Option (List ℚ)
  macd : Option MacdData
  bollinger : Option BollingerData
  dates : Option (List String)
deriving DecidableEq

/-- The `metrics` object of a detail document (individual figures may be
absent; the formatters tolerate that). -/
structure Metrics where
  currentPrice : Option ℚ
  lastChange : Option ℚ
  ytdReturn : Option ℚ
  ytdStartPrice : Option ℚ
  maxDrawdown : Option ℚ
  volatility : Option ℚ
  avgVolume : Option ℚ
  high52w : Option ℚ
  low52w : Option ℚ
deriving DecidableEq

/-- The `technicals` object of a detail document. -/
structure Technicals where
  rsi : Option ℚ
  macdSignal : Option String
  aboveMa50 : Option Bool
  aboveMa200 : Option Bool
deriving DecidableEq

/-- A per-symbol detail document (`data/stocks/<SYMBOL>.json`). `metrics`
and `technicals` are dereferenced unconditionally by the detail page, so
they are required fields; `priceHistory` and `indicators` are checked (or
not) at each use site and stay optional. -/
structure StockDoc where
  symbol : String
  name : Option String
  sector : Option String
  marketCap : Option ℚ
  priceHistory : Option (List Bar)
  indicators : Option Indicators
  metrics : Metrics
  technicals : Technicals
deriving DecidableEq

/-- The color of one volume bar of the candlestick chart
(`charts.js` line 110): the up color exactly when `close >= open`. -/
def volumeBarColor (d : Bar) : String :=
  if d.close ≥ d.«open» then COLORS.volumeUp else COLORS.volumeDown

/-- The moving-average overlays of the candlestick chart (lines 114-133):
one line per configured key (`ma5`, `ma20`, `ma50`) present in the
indicator set. Reading `data.indicators[ma.key]` throws when `indicators`
is absent; that throw is modelled in `drawCandlestickChartM`. -/
def candlestickMaLines (ind : Indicators) : List (String × List ℚ) :=
  (([("MA5", ind.ma5), ("MA20", ind.ma20), ("MA50", ind.ma50)]).filterMap
    (fun p => p.2.map (fun series => (p.1, series))))

/-- A textual stand-in for the ECharts option object of the candlestick
chart: the OHLC rows, the moving-average overlays and the per-bar volume
colors (the claims only observe which container is written and with what
data dependencies). -/
def candlestickMarkup (ph : List Bar) (ind : Indicators) : String :=
  "candlestick[" ++
    String.join (ph.map (fun d => "(" ++ jsNumToString d.«open» ++ "," ++
      jsNumToString d.close ++ "," ++ jsNumToString d.low ++ "," ++
      jsNumToString d.high ++ ")")) ++ "|ma:" ++
    String.join ((candlestickMaLines ind).map (fun p => p.1)) ++ "|vol:" ++
    String.join (ph.map (fun d => volumeBarColor d)) ++ "]"

/-- `drawCandlestickChart` (`charts.js` lines 104-191) as the detail page
invokes it: `echarts.init(container)` throws on a `null` container, mapping
`data.priceHistory` throws when it is absent, and the moving-average loop
dereferences `data.indicators` and throws when that object is absent. -/
def drawCandlestickChartM (data : StockDoc) (doc : Doc) : Except Unit Doc :=
  match domGet doc "candlestick-chart" with
  | none => .error ()
  | some _ =>
    match data.priceHistory with
    | none => .error ()
    | some ph =>
      match data.indicators with
      | none => .error ()
      | some ind => .ok (domSet doc "candlestick-chart" (candlestickMarkup ph ind))

/-- The RSI chart option content (line series with the fixed [0,100] domain
and the 30/70 reference lines). -/
def rsiMarkup (dates : List String) (rsiData : List ℚ) : String :=
  "rsi[" ++ String.join dates ++ "|" ++
    String.join (rsiData.map jsNumToString) ++ "]"

/-- `drawRSIChart` (lines 196-239): init throws on a missing container,
then the chart is drawn from the dates and the RSI series. -/
def drawRSIChartM (dates : List String) (rsiData : List ℚ) (doc : Doc) :
    Except Unit Doc :=
  match domGet doc "rsi-chart" with
  | none => .error ()
  | some _ => .ok (domSet doc "rsi-chart" (rsiMarkup dates rsiData))

/-- The MACD chart option content: histogram bars colored by sign
(`v >= 0` takes the gain color) plus the MACD and signal lines. -/
def macdMarkup (dates : List String) (macdData : MacdData) : String :=
  "macd[" ++ String.join dates ++ "|" ++
    String.join (macdData.histogram.map
      (fun v => if v ≥ 0 then COLORS.gain else COLORS.loss)) ++ "]"

/-- `drawMACDChart` (lines 244-275). -/
def drawMACDChartM (dates : List String) (macdData : MacdData) (doc : Doc) :
    Except Unit Doc :=
  match domGet doc "macd-chart" with
  | none => .error ()
  | some _ => .ok (domSet doc "macd-chart" (macdMarkup dates macdData))

/-- The Bollinger chart option content: the close-price line and the three
bands. -/
def bollingerMarkup (dates : List String) (closeData : List ℚ)
    (bollinger : BollingerData) : String :=
  "bollinger[" ++ String.join dates ++ "|" ++
    String.join (closeData.map jsNumToString) ++ "|" ++
    String.join (bollinger.upper.map jsNumToString) ++ "]"

/-- `drawBollingerChart` (lines 280-314). -/
def drawBollingerChartM (dates : List String) (closeData : List ℚ)
    (bollinger : BollingerData) (doc : Doc) : Except Unit Doc :=
  match domGet doc "bollinger-chart" with
  | none => .error ()
  | some _ => .ok (domSet doc "bollinger-chart"
      (bollingerMarkup dates closeData bollinger))

/-! ## The dashboard loader -/

/-- `loadAllStockData` (dashboard module lines 20-34): nothing to load
without a summary or without its stock list; otherwise one fetch per
symbol, each failure caught independently and replaced by `null`
(`fetchResult` returning `none` stands for a rejected fetch, a JSON parse
error, or a parsed `null` body), then `.filter(Boolean)` keeps the
successes in input order. -/
def loadAllStockData (summaryData : Option Summary)
    (fetchResult : String → Option StockDoc) : List StockDoc :=
  match summaryData with
  | none => []
  | some sd =>
    match sd.stocks with
    | none => []
    | some stocks => (stocks.map (fun s => fetchResult s.symbol)).filterMap id

/-! ## The sparkline chart registry -/

/-- The mutable dashboard chart state: `charts` is the `sparklineCharts`
array (live handles, identified by creation number), `nextId` counts every
handle ever created, and `disposed` records each `dispose()` call in order.
-/
structure ChartRegistry where
  charts : List Nat
  nextId : Nat
  disposed : List Nat
deriving DecidableEq

/-- The dashboard state before any render: empty registry, nothing created,
nothing disposed. -/
def initRegistry : ChartRegistry := ⟨[], 0, []⟩

/-- Does the sparkline callback of `renderStockTable` (lines 108-118) create
a chart for this row? It requires the matching detail record
(`fullData.find(d => d.symbol === s.symbol)`) to exist and to carry a
truthy `priceHistory`. The mount element `spark-<symbol>` was just created
by the row markup, so the element check passes. -/
def sparkQualifies (fullData : List StockDoc) (s : Stock) : Bool :=
  match fullData.find? (fun d => d.symbol == s.symbol) with
  | none => false
  | some d => d.priceHistory.isSome

/-- One iteration of the sparkline loop: `sparklineCharts.push(drawSparkline ...)`
allocates the next handle id when the row qualifies. -/
def pushSpark (fullData : List StockDoc) (st : ChartRegistry) (s : Stock) :
    ChartRegistry :=
  if sparkQualifies fullData s then
    { st with charts := st.charts ++ [st.nextId], nextId := st.nextId + 1 }
  else st

/-- The sparkline half of `renderStockTable`: the deferred
`requestAnimationFrame` callback, run to completion. -/
def renderSparklines (stocks : List Stock) (fullData : List StockDoc)
    (st : ChartRegistry) : ChartRegistry :=
  stocks.foldl (pushSpark fullData) st

/-- The current values of the four filter controls when a change event
fires. -/
structure Criteria where
  search : String
  sector : String
  signal : String
  sortBy : String
deriving DecidableEq

/-- One `applyFilters` call (lines 160-198) acting on the chart registry:
compute the filtered and sorted rows, dispose every registered handle and
clear the registry (`sparklineCharts.forEach(c => c.dispose());
sparklineCharts.length = 0`), then re-render the table, which registers one
new sparkline per row with loaded price history. -/
def applyFiltersStep (stocks : List Stock) (fullData : List StockDoc)
    (c : Criteria) (st : ChartRegistry) : ChartRegistry :=
  let filtered := applyFiltersList stocks c.search c.sector c.signal c.sortBy
  let st1 : ChartRegistry :=
    { charts := [], nextId := st.nextId, disposed := st.disposed ++ st.charts }
  renderSparklines filtered fullData st1

/-- A dashboard session: the initial render plus every later filter/sort
change, i.e. the fold of `applyFiltersStep` over the event sequence. -/
def runDashboard (stocks : List Stock) (fullData : List StockDoc)
    (es : List Criteria) : ChartRegistry :=
  es.foldl (fun st c => applyFiltersStep stocks fullData c st) initRegistry

/-! ## The detail page (`stock-detail.js`) -/

/-- One detail metric card (template at `stock-detail.js` lines 34-40). -/
def detailCardDiv (label value sub color : String) : String :=
  "<div class=\"metric-card\"><div class=\"label\">" ++ label ++
    "</div><div class=\"value\" style=\"color: " ++ color ++ "\">" ++ value ++
    "</div>" ++ (if sub = "" then "" else "<div class=\"sub text-gray-400\">" ++ sub ++ "</div>") ++
    "</div>"

/-- The seven metric cards of `renderMetricCards` (lines 24-32). -/
def detailCards (data : StockDoc) : List (String × String × String × String) :=
  let m := data.metrics
  let t := data.technicals
  let ytdColor := colorForValue m.ytdReturn
  let changeColor := colorForValue m.lastChange
  let rsiCol := rsiColor t.rsi
  [ ("Price", "$" ++ formatNumber m.currentPrice,
      "<span style=\"color:" ++ changeColor ++ "\">" ++ formatPercent m.lastChange ++
        "</span> today", "#f9fafb"),
    ("YTD Return", formatPercent m.ytdReturn,
      "from $" ++ formatNumber m.ytdStartPrice, ytdColor),
    ("RSI (14)", (match t.rsi with | some r => jsToFixed r 1 | none => "-"),
      rsiLabel t.rsi, rsiCol),
    ("MACD Signal", t.macdSignal.getD "-", "",
      if t.macdSignal = some "bullish" then COLORS.gain
      else if t.macdSignal = some "bearish" then COLORS.loss else COLORS.text),
    ("Max Drawdown", formatPercent m.maxDrawdown, "", COLORS.loss),
    ("Volatility", formatPercent m.volatility, "annualized", "#f9fafb"),
    ("Avg Volume", formatVolume m.avgVolume, "", "#f9fafb") ]

/-- `renderMetricCards` (lines 15-41): builds the cards from the required
`metrics`/`technicals` objects and writes them, throwing when the
`metric-cards` container is absent. -/
def renderMetricCards (data : StockDoc) (doc : Doc) : Except Unit Doc :=
  setOrThrow doc "metric-cards"
    (String.join ((detailCards data).map
      (fun c => detailCardDiv c.1 c.2.1 c.2.2.1 c.2.2.2)))

/-- The key-stat grid rows of `renderKeyStats` (lines 46-55). -/
def keyStats (data : StockDoc) : List (String × String) :=
  let m := data.metrics
  [ ("Market Cap", formatMarketCap data.marketCap),
    ("52W High", "$" ++ formatNumber m.high52w),
    ("52W Low", "$" ++ formatNumber m.low52w),
    ("Above MA50", match data.technicals.aboveMa50 with
      | some true => "Yes" | some false => "No" | none => "-"),
    ("Above MA200", match data.technicals.aboveMa200 with
      | some true => "Yes" | some false => "No" | none => "-"),
    ("YTD Start", "$" ++ formatNumber m.ytdStartPrice),
    ("Trading Days", match data.priceHistory with
      | some ph => toString ph.length | none => "-"),
    ("Sector", data.sector.getD "-") ]

/-- The markup of the key-stat grid (template at lines 57-62). -/
def keyStatsHTML (data : StockDoc) : String :=
  String.join ((keyStats data).map (fun s =>
    "<div><div class=\"text-xs text-gray-500 uppercase tracking-wider\">" ++ s.1 ++
      "</div><div class=\"text-sm font-bold text-white mt-1\">" ++ s.2 ++
      "</div></div>"))

/-- `renderKeyStats` (lines 43-63), throwing when the `key-stats` container
is absent. -/
def renderKeyStats (data : StockDoc) (doc : Doc) : Except Unit Doc :=
  setOrThrow doc "key-stats" (keyStatsHTML data)

/-- The `dates` line of `init`: `data.indicators?.dates ||
data.priceHistory.map(d => d.date)` — optional chaining on `indicators`,
and the short-circuiting fallback dereferences `priceHistory` only when the
left side is absent. -/
def detailDates (data : StockDoc) : Except Unit (List String) :=
  match data.indicators.bind Indicators.dates with
  | some ds => .ok ds
  | none =>
    match data.priceHistory with
    | none => .error ()
    | some ph => .ok (ph.map Bar.date)

/-- The `closes` line of `init`: `data.priceHistory.map(d => d.close)`,
dereferencing `priceHistory` unconditionally. -/
def detailCloses (data : StockDoc) : Except Unit (List ℚ) :=
  match data.priceHistory with
  | none => .error ()
  | some ph => .ok (ph.map Bar.close)

/-- The body of the detail page `init` (`stock-detail.js` lines 82-109)
after the symbol and the document have loaded successfully: header texts,
metric cards, the four charts (RSI, MACD and Bollinger each guarded by
optional chaining on `indicators`, the candlestick chart unguarded), and
the key stats. -/
def detailInit (data : StockDoc) (doc : Doc) : Except Unit Doc := do
  let doc ← setOrThrow doc "stock-title"
    (data.symbol ++ " - " ++ data.name.getD "undefined")
  let doc ← setOrThrow doc "stock-sector" (data.sector.getD "")
  let doc ← renderMetricCards data doc
  let dates ← detailDates data
  let closes ← detailCloses data
  let doc ← drawCandlestickChartM data doc
  let doc ← match data.indicators.bind Indicators.rsi with
    | some r => drawRSIChartM dates r doc
    | none => Except.ok doc
  let doc ← match data.indicators.bind Indicators.macd with
    | some md => drawMACDChartM dates md doc
    | none => Except.ok doc
  let doc ← match data.indicators.bind Indicators.bollinger with
    | some b => drawBollingerChartM dates closes b doc
    | none => Except.ok doc
  renderKeyStats data doc

/-! ## Sample data used by witnesses and counterexamples -/

/-- A minimal stock record: every optional field absent. -/
def blankStock : Stock :=
  { symbol := "AAA", name := none, sector := none, currentPrice := none,
    lastChange := none, ytdReturn := none, rsi := none, macdSignal := none,
    aboveMa50 := none, aboveMa200 := none }

/-- A stock whose `name` is present (used against `blankStock`, whose
`name` is `null`, in the sort counterexample). -/
def namedStock : Stock := { blankStock with symbol := "BBB", name := some "bbb" }

/-- A stock with a numeric YTD return. -/
def gainStock : Stock :=
  { blankStock with
    symbol := "CCC"
    sector := some "Tech"
    macdSignal := some "bullish"
    ytdReturn := some (2 / 10) }

/-- A second stock with a larger YTD return. -/
def topStock : Stock :=
  { blankStock with
    symbol := "DDD"
    sector := some "Tech"
    macdSignal := some "bullish"
    ytdReturn := some (5 / 10) }

/-- An empty detail-page metrics object. -/
def blankMetrics : Metrics :=
  { currentPrice := none, lastChange := none, ytdReturn := none,
    ytdStartPrice := none, maxDrawdown := none, volatility := none,
    avgVolume := none, high52w := none, low52w := none }

/-- An empty technicals object. -/
def blankTechnicals : Technicals :=
  { rsi := none, macdSignal := none, aboveMa50 := none, aboveMa200 := none }

/-- A one-day price history. -/
def sampleBar : Bar :=
  { date := "2024-01-02", «open» := 100, high := 101, low := 99, close := 100,
    volume := 1000 }

/-- A detail document with a price history but no `indicators` object at
all. -/
def docNoIndicators : StockDoc :=
  { symbol := "AAA", name := some "Alpha", sector := some "Tech",
    marketCap := none, priceHistory := some [sampleBar], indicators := none,
    metrics := blankMetrics, technicals := blankTechnicals }

/-- An indicators object carrying only dates and an RSI series (no
`bollinger`, no `macd`). -/
def sampleIndicators : Indicators :=
  { ma5 := none, ma10 := none, ma20 := none, ma50 := none, ma200 := none,
    rsi := some [55], macd := none, bollinger := none,
    dates := some ["2024-01-02"] }

/-- A detail document whose `indicators` object lacks `bollinger`. -/
def docNoBollinger : StockDoc :=
  { docNoIndicators with indicators := some sampleIndicators }

/-- An indicators object carrying only dates: `rsi`, `macd` and `bollinger`
are all absent. -/
def datesOnlyIndicators : Indicators :=
  { ma5 := none, ma10 := none, ma20 := none, ma50 := none, ma200 := none,
    rsi := none, macd := none, bollinger := none,
    dates := some ["2024-01-02"] }

/-- A detail document lacking all three optional indicator series (but with
the `indicators` object itself present). -/
def docDatesOnly : StockDoc :=
  { docNoIndicators with indicators := some datesOnlyIndicators }

/-- A detail-page document with every container the page touches. -/
def fullDetailDoc : Doc :=
  [("stock-title", ""), ("stock-sector", ""), ("metric-cards", ""),
   ("candlestick-chart", ""), ("rsi-chart", ""), ("macd-chart", ""),
   ("bollinger-chart", "initial"), ("key-stats", "")]

/-! ## Claims C7, C9, C10: the formatting functions -/

/-- Claim C7: the formatting functions satisfy `formatPercent(0.1234) =
"+12.34%"`, `formatPercent(-0.05) = "-5.00%"`, `formatMarketCap(2.5e12) =
"$2.50T"` and `formatVolume(1500000) = "1.50M"`. -/
theorem C7_formatting_values :
    formatPercent (some (1234 / 10000)) = "+12.34%" ∧
    formatPercent (some (-(5 / 100 : ℚ))) = "-5.00%" ∧
    formatMarketCap (some ((25 / 10 : ℚ) * 10 ^ 12)) = "$2.50T" ∧
    formatVolume (some 1500000) = "1.50M" := by
  refine ⟨?_, ?_, ?_, ?_⟩ <;> with_unfolding_all rfl

/-- Claim C9: every formatter is total on absent input: `formatNumber`,
`formatPercent`, `formatMarketCap` and `formatVolume` return the dash,
`rsiLabel` returns `N/A`, and `rsiColor` and `colorForValue` return the
neutral text color, so no formatter throws on missing data. -/
theorem C9_formatters_total_on_null :
    formatNumber none = "-" ∧
    formatPercent none = "-" ∧
    formatMarketCap none = "-" ∧
    formatVolume none = "-" ∧
    rsiLabel none = "N/A" ∧
    rsiColor none = COLORS.text ∧
    colorForValue none = COLORS.text :=
  ⟨rfl, rfl, rfl, rfl, rfl, rfl, rfl⟩

/-- Claim C10: zero is classified as a non-negative gain throughout the
formatting interface: `formatPercent(0)` carries the plus sign,
`colorForValue(0)` is the gain color, and a volume bar whose close equals
its open takes the up color. -/
theorem C10_zero_is_gain (b : Bar) (h : b.close = b.«open») :
    formatPercent (some 0) = "+0.00%" ∧
    colorForValue (some 0) = COLORS.gain ∧
    volumeBarColor b = COLORS.volumeUp := by
  refine ⟨by with_unfolding_all rfl, rfl, ?_⟩
  simp [volumeBarColor, h]

/-- Witness for C10 at a concrete flat bar. -/
theorem C10_witness :
    sampleBar.close = sampleBar.«open» ∧
    (formatPercent (some 0) = "+0.00%" ∧
      colorForValue (some 0) = COLORS.gain ∧
      volumeBarColor sampleBar = COLORS.volumeUp) :=
  ⟨rfl, C10_zero_is_gain sampleBar rfl⟩

/-! ## Claim C8: the batch loader -/

/-- Claim C8: `loadAllStockData` catches each per-symbol failure
independently (a failed fetch contributes `none` and is filtered out) and
returns exactly the successfully loaded records: a record is in the output
exactly when some input stock's fetch succeeded with it. -/
theorem C8_load_returns_successes (sd : Summary) (l : List Stock)
    (h : sd.stocks = some l) (fetchResult : String → Option StockDoc)
    (d : StockDoc) :
    d ∈ loadAllStockData (some sd) fetchResult ↔
      ∃ s ∈ l, fetchResult s.symbol = some d := by
  simp [loadAllStockData, h, List.mem_filterMap, List.mem_map]

/-- Witness for C8: one stock whose fetch succeeds, one whose fetch fails;
the document of the successful fetch is returned. -/
theorem C8_witness :
    ({ marketOverview := none, sectorStats := none, rankings := none,
       stocks := some [gainStock, namedStock] } : Summary).stocks
        = some [gainStock, namedStock] ∧
    (docNoBollinger ∈ loadAllStockData
        (some { marketOverview := none, sectorStats := none, rankings := none,
                stocks := some [gainStock, namedStock] })
        (fun sym => if sym = "CCC" then some docNoBollinger else none) ↔
      ∃ s ∈ [gainStock, namedStock],
        (if s.symbol = "CCC" then some docNoBollinger else none) = some docNoBollinger) :=
  ⟨rfl, C8_load_returns_successes _ _ rfl _ _⟩

/-! ## Claim C1: conjunctive filtering -/

/-- Lowercasing a string preserves emptiness. -/
theorem jsToLower_eq_empty_iff (s : String) : jsToLower s = "" ↔ s = "" := by
  cases s with
  | mk d =>
    cases d with
    | nil => simp [jsToLower]
    | cons a l =>
      constructor
      · intro h
        exact absurd (congrArg String.data h) (by simp [jsToLower])
      · intro h
        exact absurd (congrArg String.data h) (by simp)

/-- Membership in the filtered list before sorting: the three filters
combine conjunctively, each disabled by an empty criterion. -/
theorem mem_filterStage {stocks : List Stock} {se sec sig : String}
    {r : Stock} :
    r ∈ filterStage stocks se sec sig ↔
      r ∈ stocks ∧
      (jsToLower se = "" ∨ matchesSearch (jsToLower se) r = true) ∧
      (sec = "" ∨ r.sector = some sec) ∧
      (sig = "" ∨ r.macdSignal = some sig) := by
  simp only [filterStage]
  by_cases h1 : jsToLower se = "" <;> by_cases h2 : sec = "" <;>
    by_cases h3 : sig = "" <;>
    simp [h1, h2, h3, List.mem_filter, and_assoc] <;> tauto

/-- Claim C1: a record is in the output of `applyFilters` exactly when it
is an input record that passes the case-insensitive substring test of the
search text against its symbol or its name, and its sector equals the
sector criterion, and its MACD signal equals the signal criterion, an empty
criterion passing every record. (The sort is a permutation, so membership
in the final output coincides with membership in the filtered list.) -/
theorem C1_filtering_conjunctive (stocks : List Stock)
    (searchRaw sector signal sortBy : String) (r : Stock) :
    r ∈ applyFiltersList stocks searchRaw sector signal sortBy ↔
      r ∈ stocks ∧
      (searchRaw = "" ∨
        strIncludes (jsToLower r.symbol) (jsToLower searchRaw) = true ∨
        strIncludes (jsToLower (r.name.getD "")) (jsToLower searchRaw) = true) ∧
      (sector = "" ∨ r.sector = some sector) ∧
      (signal = "" ∨ r.macdSignal = some signal) := by
  rw [applyFiltersList, List.mem_insertionSort, mem_filterStage,
    jsToLower_eq_empty_iff]
  simp [matchesSearch, Bool.or_eq_true]

/-! ## Claim C2: null handling in the sort -/

/-- Nothing compares greater than `+Infinity` under JS `>` (a string on the
left converts to a number or `NaN`, and `NaN` comparisons are false). -/
theorem jsGt_posInf (v : ExtVal) : jsGt v .posInf = false := by
  cases v with
  | str s => cases h : strToNum s <;> simp [jsGt, ExtVal.toXNum, h, xgt]
  | _ => simp [jsGt, ExtVal.toXNum, xgt]

/-- Nothing compares less than `-Infinity` under JS `<`. -/
theorem jsLt_negInf (v : ExtVal) : jsLt v .negInf = false := by
  cases v with
  | str s => cases h : strToNum s <;> simp [jsLt, ExtVal.toXNum, h, xgt]
  | _ => simp [jsLt, ExtVal.toXNum, xgt]

/-- A record whose sort field is `null` never forces a swap: the comparator
maps it to `+Infinity` (ascending) or `-Infinity` (descending), and no left
operand exceeds it, so `sortLe a b` holds whenever `b` is the null-valued
record. -/
theorem sortLe_null_right (field : String) (asc : Bool) (a b : Stock)
    (hb : b.getField field = .null) : sortLe field asc a b := by
  unfold sortLe jsCmp
  rw [hb]
  cases asc <;> simp [lowerVal, substNull, jsGt_posInf, jsLt_negInf]

/-- Against a record with a numeric or boolean (non-null, non-string) sort
value, a null-valued record always compares after it: the comparator
returns 1 in both directions. -/
theorem not_sortLe_null_left (field : String) (asc : Bool) (a b : Stock)
    (ha : a.getField field = .null) (hb : b.getField field ≠ .null)
    (hbs : (b.getField field).isStr = false) : ¬ sortLe field asc a b := by
  unfold sortLe jsCmp
  rw [ha]
  rcases hB : b.getField field with _ | q | s | bb
  · exact absurd hB hb
  · cases asc <;> simp [lowerVal, substNull, jsGt, jsLt, ExtVal.toXNum, xgt]
  · rw [hB] at hbs
    simp [JsVal.isStr] at hbs
  · cases asc <;> simp [lowerVal, substNull, jsGt, jsLt, ExtVal.toXNum, xgt]

/-- Inserting into a list whose null-valued records already form a suffix
preserves that shape, provided no sort value in the list is a string. -/
theorem nullsLast_orderedInsert (field : String) (asc : Bool) (a : Stock)
    (l : List Stock) (hl : ∀ s ∈ l, (s.getField field).isStr = false)
    (hL : NullsLast field l) :
    NullsLast field (List.orderedInsert (sortLe field asc) a l) := by
  induction l with
  | nil =>
    simp [List.orderedInsert, NullsLast]
  | cons b bs ih =>
    rw [List.orderedInsert]
    rcases List.pairwise_cons.mp hL with ⟨hb_bs, hbs_pw⟩
    split_ifs with hab
    · refine List.pairwise_cons.mpr ⟨?_, hL⟩
      intro x hx hanull
      have hbnull : b.getField field = .null := by
        by_contra hbn
        exact not_sortLe_null_left field asc a b hanull hbn
          (hl b (List.mem_cons_self b bs)) hab
      rcases List.mem_cons.mp hx with rfl | hxbs
      · exact hbnull
      · exact hb_bs x hxbs hbnull
    · refine List.pairwise_cons.mpr
        ⟨?_, ih (fun s hs => hl s (List.mem_cons_of_mem b hs)) hbs_pw⟩
      intro x _ hbnull
      exact absurd (sortLe_null_right field asc a b hbnull) hab

/-- Sorting with the comparator sends every null-valued record after every
non-null one, for either direction, as long as the sort field holds no
string values in the list. -/
theorem nullsLast_insertionSort (field : String) (asc : Bool)
    (l : List Stock) (h : ∀ s ∈ l, (s.getField field).isStr = false) :
    NullsLast field (List.insertionSort (sortLe field asc) l) := by
  induction l with
  | nil => simp [NullsLast]
  | cons a l ih =>
    rw [List.insertionSort]
    refine nullsLast_orderedInsert field asc a _ ?_
      (ih fun s hs => h s (List.mem_cons_of_mem a hs))
    intro s hs
    exact h s (List.mem_cons_of_mem a ((List.mem_insertionSort _).mp hs))

/-- Counterexample to claim C2 as stated: sorting by the string-valued
field `name` ascending, a record whose name is `null` precedes a record
with a name. The comparator substitutes `Infinity` for the null, and
`Infinity > "bbb"` and `"bbb" > Infinity` are both false in JS (the string
converts to `NaN`), so the comparator answers -1 for both orderings of the
pair. ECMA-262 makes the sort order implementation-defined for such an
inconsistent comparator; under this file's sort model the null-named record
stays first, so nulls do not appear last. -/
theorem C2_counterexample :
    ¬ NullsLast "name"
      (applyFiltersList [blankStock, namedStock] "" "" "" "name-asc") := by
  with_unfolding_all decide

/-- Claim C2 as amended: for a sort field whose values in the list are
numeric, boolean or null (every field offered for sorting except the string
fields), records with a null sort value appear after all records with a
non-null one, under both directions. -/
theorem C2_nulls_sort_last (stocks : List Stock)
    (searchRaw sector signal sortBy : String)
    (h : ∀ s ∈ stocks, (s.getField (sortField sortBy)).isStr = false) :
    NullsLast (sortField sortBy)
      (applyFiltersList stocks searchRaw sector signal sortBy) := by
  unfold applyFiltersList
  apply nullsLast_insertionSort
  intro s hs
  exact h s (mem_filterStage.mp hs).1

/-- Witness for the amended C2: a list with a null `ytdReturn` between two
numeric ones, sorted ascending; the null record ends up last. -/
theorem C2_witness :
    (∀ s ∈ [gainStock, blankStock, topStock],
        (s.getField (sortField "ytdReturn-asc")).isStr = false) ∧
    NullsLast (sortField "ytdReturn-asc")
      (applyFiltersList [gainStock, blankStock, topStock] "" "" ""
        "ytdReturn-asc") :=
  ⟨by with_unfolding_all decide,
    C2_nulls_sort_last [gainStock, blankStock, topStock] "" "" ""
      "ytdReturn-asc" (by with_unfolding_all decide)⟩

/-! ## Claim C3: descending YTD sort puts a maximum first -/

/-- On the `ytdReturn` field (numeric or null) the descending comparator is
the reversed order of `ytdKey`, the return with null read as bottom. -/
theorem sortLe_ytd (a b : Stock) :
    sortLe "ytdReturn" false a b ↔ ytdKey b ≤ ytdKey a := by
  unfold sortLe jsCmp ytdKey
  rcases ha : a.ytdReturn with _ | qa <;> rcases hb : b.ytdReturn with _ | qb <;>
    simp [Stock.getField, ha, hb, lowerVal, substNull, jsLt, ExtVal.toXNum,
      xgt, WithBot.coe_le_coe, not_lt]
  rcases lt_or_ge qa qb with h | h
  · simp [h, not_le.mpr h]
  · simp [not_lt.mpr h, h]

/-- Claim C3: when the sort key is `ytdReturn-desc`, the first record of
the output of `applyFilters` has the maximum `ytdReturn` among all records
of the filtered list (null returns counting as bottom; they sort last, so a
numeric maximum is first whenever one exists). -/
theorem C3_first_has_max_ytd (stocks : List Stock)
    (searchRaw sector signal : String) (hd : Stock)
    (hhd : (applyFiltersList stocks searchRaw sector signal
        "ytdReturn-desc").head? = some hd) :
    ∀ r ∈ applyFiltersList stocks searchRaw sector signal "ytdReturn-desc",
      ytdKey r ≤ ytdKey hd := by
  have hsorted : List.Sorted (sortLe "ytdReturn" false)
      (applyFiltersList stocks searchRaw sector signal "ytdReturn-desc") := by
    unfold applyFiltersList
    have hf : sortField "ytdReturn-desc" = "ytdReturn" := rfl
    have ha : sortAsc "ytdReturn-desc" = false := rfl
    rw [hf, ha]
    haveI : IsTotal Stock (sortLe "ytdReturn" false) :=
      ⟨fun a b => by
        rw [sortLe_ytd, sortLe_ytd]
        exact le_total (ytdKey b) (ytdKey a)⟩
    haveI : IsTrans Stock (sortLe "ytdReturn" false) :=
      ⟨fun a b c hab hbc => by
        rw [sortLe_ytd] at hab hbc ⊢
        exact le_trans hbc hab⟩
    exact List.sorted_insertionSort _ _
  intro r hr
  cases hout : applyFiltersList stocks searchRaw sector signal "ytdReturn-desc" with
  | nil => rw [hout] at hr; exact absurd hr (List.not_mem_nil r)
  | cons x t =>
    rw [hout] at hhd hr hsorted
    have hx : x = hd := by simpa using hhd
    subst hx
    rcases List.mem_cons.mp hr with rfl | hrt
    · exact le_refl _
    · exact (sortLe_ytd x r).mp (List.rel_of_sorted_cons hsorted r hrt)

/-- Witness for C3: two Tech stocks sorted by descending YTD; the head is
the larger one and bounds both records. -/
theorem C3_witness :
    (applyFiltersList [gainStock, topStock] "" "" "" "ytdReturn-desc").head?
        = some topStock ∧
    ∀ r ∈ applyFiltersList [gainStock, topStock] "" "" "" "ytdReturn-desc",
      ytdKey r ≤ ytdKey topStock :=
  ⟨by with_unfolding_all decide,
    C3_first_has_max_ytd [gainStock, topStock] "" "" "" topStock
      (by with_unfolding_all decide)⟩

/-! ## Claim C4: the sparkline chart registry -/

/-- Every handle ever created is accounted for exactly once: the dispose
log followed by the live registry is the creation sequence `0, 1, ...,
nextId - 1` in order. This packages "no leak" (a created handle is disposed
or live) and "no double dispose" (the concatenation has no duplicates). -/
def RegistryAccounted (st : ChartRegistry) : Prop :=
  st.disposed ++ st.charts = List.range st.nextId

/-- Running the sparkline render loop appends one fresh handle per
qualifying row, in creation order, and touches nothing else. -/
theorem renderSparklines_eq (fullData : List StockDoc) (stocks : List Stock)
    (st : ChartRegistry) :
    renderSparklines stocks fullData st =
      { charts := st.charts ++
          List.range' st.nextId (stocks.countP (sparkQualifies fullData)),
        nextId := st.nextId + stocks.countP (sparkQualifies fullData),
        disposed := st.disposed } := by
  induction stocks generalizing st with
  | nil =>
    simp [renderSparklines]
  | cons s rest ih =>
    have hstep : renderSparklines (s :: rest) fullData st =
        renderSparklines rest fullData (pushSpark fullData st s) := by
      simp [renderSparklines]
    rw [hstep, ih]
    unfold pushSpark
    by_cases hq : sparkQualifies fullData s = true
    · simp [hq, List.countP_cons, List.range'_succ, List.append_assoc]
      omega
    · simp only [Bool.not_eq_true] at hq
      simp [hq, List.countP_cons]

/-- One `applyFilters` call preserves the accounting invariant: it moves
every live handle to the dispose log exactly once, clears the registry, and
registers only fresh handles. -/
theorem applyFiltersStep_accounted {st : ChartRegistry} (stocks : List Stock)
    (fullData : List StockDoc) (c : Criteria) (h : RegistryAccounted st) :
    RegistryAccounted (applyFiltersStep stocks fullData c st) := by
  unfold RegistryAccounted at h ⊢
  unfold applyFiltersStep
  rw [renderSparklines_eq]
  simp only [List.nil_append]
  rw [h, List.range_eq_range', List.range_eq_range']
  have := List.range'_append_1 0
    st.nextId ((applyFiltersList stocks c.search c.sector c.signal
      c.sortBy).countP (sparkQualifies fullData))
  simpa [Nat.add_comm] using this

/-- The accounting invariant holds after any event sequence. -/
theorem foldl_accounted (stocks : List Stock) (fullData : List StockDoc)
    (es : List Criteria) (st : ChartRegistry) (h : RegistryAccounted st) :
    RegistryAccounted
      (es.foldl (fun st c => applyFiltersStep stocks fullData c st) st) := by
  induction es generalizing st with
  | nil => exact h
  | cons e rest ih =>
    exact ih _ (applyFiltersStep_accounted stocks fullData e h)

/-- Counterexample to claim C4 as stated: with one stock in the filtered
output but no loaded detail data (its fetch failed), the table shows one
row but the registry holds zero live handles after the render — the live
count equals the rows with loaded price history, not the row count. -/
theorem C4_counterexample :
    (runDashboard [blankStock] []
        [{ search := "", sector := "", signal := "", sortBy := "" }]).charts.length ≠
      (applyFiltersList [blankStock] "" "" "" "").length := by
  with_unfolding_all decide

/-- Claim C4 as amended: across every sequence of filter/sort change
events, each `applyFilters` call disposes every previously registered
handle and empties the registry before re-rendering, so after any run
ending in event `e` the live handles number exactly the rows of the
current filtered output that have loaded price history, every handle ever
created is either disposed or live (no leak), and none is recorded twice
(no double dispose). -/
theorem C4_registry_accounting (stocks : List Stock)
    (fullData : List StockDoc) (es : List Criteria) (e : Criteria) :
    (runDashboard stocks fullData (es ++ [e])).charts.length =
      (applyFiltersList stocks e.search e.sector e.signal e.sortBy).countP
        (sparkQualifies fullData) ∧
    (runDashboard stocks fullData (es ++ [e])).disposed ++
        (runDashboard stocks fullData (es ++ [e])).charts =
      List.range (runDashboard stocks fullData (es ++ [e])).nextId ∧
    ((runDashboard stocks fullData (es ++ [e])).disposed ++
        (runDashboard stocks fullData (es ++ [e])).charts).Nodup := by
  have hrun : runDashboard stocks fullData (es ++ [e]) =
      applyFiltersStep stocks fullData e (runDashboard stocks fullData es) := by
    unfold runDashboard
    rw [List.foldl_append]
    rfl
  have hacc : RegistryAccounted (runDashboard stocks fullData (es ++ [e])) := by
    unfold runDashboard
    exact foldl_accounted stocks fullData _ _ rfl
  refine ⟨?_, hacc, ?_⟩
  · rw [hrun]
    unfold applyFiltersStep
    rw [renderSparklines_eq]
    simp
  · rw [hacc]
    exact List.nodup_range _

/-! ## Claim C5: renderers and missing containers -/

/-- A market overview with data to render. -/
def sampleOverview : MarketOverview :=
  { totalStocks := 2, avgYtdReturn := some (1 / 10), medianYtdReturn := none,
    bullishCount := 1, bearishCount := 1, aboveMa50Count := 1,
    aboveMa200Count := 0, analysisDate := some "2024-06-30" }

/-- A summary document with data for every dashboard section. -/
def sampleSummary : Summary :=
  { marketOverview := some sampleOverview,
    sectorStats := some [("Tech",
      { count := 2, avgYtdReturn := 1 / 10, bestPerformer := .plain "CCC" })],
    rankings := none,
    stocks := some [gainStock, topStock] }

/-- A summary document with no optional sub-object at all. -/
def emptySummary : Summary :=
  { marketOverview := none, sectorStats := none, rankings := none,
    stocks := none }

/-- Counterexample to claim C5 as stated: with the overview data present
but the `overview-cards` container absent from the document,
`renderOverviewCards` throws (it assigns `container.innerHTML` without a
null check) instead of performing no operation. -/
theorem C5_counterexample :
    renderOverviewCards sampleSummary [] = .error () := rfl

/-- Claim C5 as amended: the renderers do not null-check their containers.
When a renderer has data to render and its container element is absent, it
raises an error (overview cards, sector heatmap, stock table, performer
list); absence of the data, by contrast, is treated as nothing to render
(sector heatmap without `sectorStats` returns with the document
untouched). -/
theorem C5_missing_container_throws (summary summary2 : Summary) (doc : Doc)
    (o : MarketOverview) (stats : List (String × SectorStat))
    (stocks gl : List Stock)
    (h1 : summary.marketOverview = some o)
    (h2 : domGet doc "overview-cards" = none)
    (h3 : summary.sectorStats = some stats)
    (h4 : domGet doc "sector-heatmap" = none)
    (h5 : domGet doc "stock-table-body" = none)
    (h6 : domGet doc "top-gainers" = none)
    (h7 : gl ≠ [])
    (h8 : summary2.sectorStats = none) :
    renderOverviewCards summary doc = .error () ∧
    renderSectorHeatmap summary doc = .error () ∧
    renderStockTableDoc stocks doc = .error () ∧
    renderPerformerList "top-gainers" (some gl) true doc = .error () ∧
    renderSectorHeatmap summary2 doc = .ok doc := by
  refine ⟨?_, ?_, ?_, ?_, ?_⟩
  · rw [renderOverviewCards, h1]
    simp [setOrThrow, h2]
  · rw [renderSectorHeatmap, h3]
    simp [setOrThrow, h4]
  · rw [renderStockTableDoc]
    simp [setOrThrow, h5]
  · rw [renderPerformerList]
    simp [setOrThrow, h6, List.isEmpty_iff, h7]
  · rw [renderSectorHeatmap, h8]

/-- Witness for the amended C5 at an empty document. -/
theorem C5_witness :
    sampleSummary.marketOverview = some sampleOverview ∧
    domGet [] "overview-cards" = none ∧
    ([gainStock] : List Stock) ≠ [] ∧
    emptySummary.sectorStats = none ∧
    (renderOverviewCards sampleSummary [] = .error () ∧
      renderSectorHeatmap sampleSummary [] = .error () ∧
      renderStockTableDoc [gainStock] [] = .error () ∧
      renderPerformerList "top-gainers" (some [gainStock]) true [] = .error () ∧
      renderSectorHeatmap emptySummary [] = .ok []) :=
  ⟨rfl, rfl, by simp, rfl,
    C5_missing_container_throws sampleSummary emptySummary []
      sampleOverview _ [gainStock] [gainStock] rfl rfl rfl rfl rfl rfl
      (by simp) rfl⟩

/-! ## Claim C6: the detail page and missing indicator objects -/

/-- Reading after writing: `domSet` changes only the written id, and only
its markup. -/
theorem domGet_domSet (doc : Doc) (id html id2 : String) :
    domGet (domSet doc id html) id2 =
      if id2 = id then (domGet doc id2).map (fun _ => html)
      else domGet doc id2 := by
  induction doc with
  | nil =>
    by_cases h : id2 = id <;> simp [domGet, domSet, h]
  | cons p rest ih =>
    rcases p with ⟨k, v⟩
    by_cases h1 : k = id
    · subst h1
      by_cases h2 : k = id2
      · subst h2
        simp [domGet, domSet]
      · have h2s : id2 ≠ k := fun h => h2 h.symm
        simp [domGet, domSet, h2, h2s, ih]
    · by_cases h2 : k = id2
      · subst h2
        simp [domGet, domSet, h1]
      · have h2s : id2 ≠ k := fun h => h2 h.symm
        simp [domGet, domSet, h1, h2, h2s, ih]

/-- Writing never changes which elements exist. -/
theorem domGet_domSet_isSome (doc : Doc) (id html id2 : String) :
    (domGet (domSet doc id html) id2).isSome = (domGet doc id2).isSome := by
  rw [domGet_domSet]
  by_cases h : id2 = id <;> simp [h]

/-- `setOrThrow` succeeds on a present container. -/
theorem setOrThrow_ok (doc : Doc) (id html : String)
    (h : (domGet doc id).isSome) :
    setOrThrow doc id html = .ok (domSet doc id html) := by
  rcases ho : domGet doc id with _ | v
  · rw [ho] at h
    simp at h
  · simp [setOrThrow, ho]

/-- A successful container write: the write succeeds, element presence is
untouched, and every other element keeps its markup. -/
theorem write_step (doc : Doc) (id html : String)
    (h : (domGet doc id).isSome) :
    setOrThrow doc id html = .ok (domSet doc id html) ∧
    (∀ i, (domGet (domSet doc id html) i).isSome = (domGet doc i).isSome) ∧
    (∀ i, i ≠ id → domGet (domSet doc id html) i = domGet doc i) := by
  refine ⟨setOrThrow_ok doc id html h, fun i => ?_, fun i hi => ?_⟩
  · rw [domGet_domSet_isSome]
  · rw [domGet_domSet]
    simp [hi]

/-- Bind of a successful `Except` computation. -/
theorem except_bind_ok {α β : Type} (a : α) (f : α → Except Unit β) :
    (Except.ok a >>= f) = f a := rfl

/-- Counterexample to claim C6 as stated: a detail document with a price
history but no `indicators` object at all makes the page throw. The claim
lists the `indicators` object itself among the optional sub-objects that
are silently skipped, but `drawCandlestickChart` reads
`data.indicators[ma.key]` without a guard, a TypeError when `indicators` is
absent. -/
theorem C6_counterexample :
    detailInit docNoIndicators fullDetailDoc = .error () := by
  with_unfolding_all rfl

/-- The candlestick chart succeeds on a document with its container when
the price history and the indicators object are present. -/
theorem drawCandlestick_ok (data : StockDoc) (d : Doc) (ind : Indicators)
    (ph : List Bar) (hind : data.indicators = some ind)
    (hph : data.priceHistory = some ph)
    (hd : (domGet d "candlestick-chart").isSome) :
    drawCandlestickChartM data d =
      .ok (domSet d "candlestick-chart" (candlestickMarkup ph ind)) := by
  unfold drawCandlestickChartM
  rcases hx : domGet d "candlestick-chart" with _ | v
  · rw [hx] at hd
    simp at hd
  · rw [hph, hind]

/-- The RSI chart succeeds on a document with its container. -/
theorem drawRSI_ok (dates : List String) (rsiData : List ℚ) (d : Doc)
    (hd : (domGet d "rsi-chart").isSome) :
    drawRSIChartM dates rsiData d =
      .ok (domSet d "rsi-chart" (rsiMarkup dates rsiData)) := by
  unfold drawRSIChartM
  rcases hx : domGet d "rsi-chart" with _ | v
  · rw [hx] at hd
    simp at hd
  · rfl

/-- The MACD chart succeeds on a document with its container. -/
theorem drawMACD_ok (dates : List String) (macdData : MacdData) (d : Doc)
    (hd : (domGet d "macd-chart").isSome) :
    drawMACDChartM dates macdData d =
      .ok (domSet d "macd-chart" (macdMarkup dates macdData)) := by
  unfold drawMACDChartM
  rcases hx : domGet d "macd-chart" with _ | v
  · rw [hx] at hd
    simp at hd
  · rfl

/-- The Bollinger chart succeeds on a document with its container. -/
theorem drawBollinger_ok (dates : List String) (closeData : List ℚ)
    (b : BollingerData) (d : Doc)
    (hd : (domGet d "bollinger-chart").isSome) :
    drawBollingerChartM dates closeData b d =
      .ok (domSet d "bollinger-chart" (bollingerMarkup dates closeData b)) := by
  unfold drawBollingerChartM
  rcases hx : domGet d "bollinger-chart" with _ | v
  · rw [hx] at hd
    simp at hd
  · rfl

/-- The dates computation succeeds whenever `indicators` and `priceHistory`
are present. -/
theorem detailDates_ok (data : StockDoc) (ind : Indicators) (ph : List Bar)
    (hind : data.indicators = some ind) (hph : data.priceHistory = some ph) :
    ∃ ds, detailDates data = .ok ds := by
  unfold detailDates
  rw [hind]
  simp only [Option.some_bind]
  rcases ind.dates with _ | ds
  · rw [hph]
    exact ⟨_, rfl⟩
  · exact ⟨_, rfl⟩

/-- The closes computation succeeds whenever `priceHistory` is present. -/
theorem detailCloses_ok (data : StockDoc) (ph : List Bar)
    (hph : data.priceHistory = some ph) :
    detailCloses data = .ok (ph.map Bar.close) := by
  unfold detailCloses
  rw [hph]

/-- Claim C6 as amended: for a detail document whose `indicators` object is
present (with a price history, on a page with its containers), `init`
succeeds, and every absent optional series among `indicators.rsi`,
`indicators.macd` and `indicators.bollinger` has its chart silently
skipped, its container keeping its markup; in particular a document lacking
`indicators.bollinger` leaves the Bollinger chart container unmodified.
Missing the whole `indicators` object is not skipped:
`drawCandlestickChart` throws on it (see the counterexample). -/
theorem C6_missing_indicator_charts_skipped (data : StockDoc) (doc : Doc)
    (ind : Indicators) (ph : List Bar)
    (hind : data.indicators = some ind)
    (hph : data.priceHistory = some ph)
    (hdoc : ∀ i ∈ ["stock-title", "stock-sector", "metric-cards",
        "candlestick-chart", "rsi-chart", "macd-chart", "bollinger-chart",
        "key-stats"], (domGet doc i).isSome) :
    ∃ doc2, detailInit data doc = .ok doc2 ∧
      (ind.rsi = none → domGet doc2 "rsi-chart" = domGet doc "rsi-chart") ∧
      (ind.macd = none → domGet doc2 "macd-chart" = domGet doc "macd-chart") ∧
      (ind.bollinger = none →
        domGet doc2 "bollinger-chart" = domGet doc "bollinger-chart") := by
  have hT : (domGet doc "stock-title").isSome = true := hdoc _ (by simp)
  have hS : (domGet doc "stock-sector").isSome = true := hdoc _ (by simp)
  have hM : (domGet doc "metric-cards").isSome = true := hdoc _ (by simp)
  have hC : (domGet doc "candlestick-chart").isSome = true := hdoc _ (by simp)
  have hR : (domGet doc "rsi-chart").isSome = true := hdoc _ (by simp)
  have hMa : (domGet doc "macd-chart").isSome = true := hdoc _ (by simp)
  have hB : (domGet doc "bollinger-chart").isSome = true := hdoc _ (by simp)
  have hK : (domGet doc "key-stats").isSome = true := hdoc _ (by simp)
  unfold detailInit
  obtain ⟨e1, p1, q1⟩ := write_step doc "stock-title"
    (data.symbol ++ " - " ++ data.name.getD "undefined") hT
  rw [e1, except_bind_ok]
  obtain ⟨e2, p2, q2⟩ := write_step _ "stock-sector" (data.sector.getD "")
    ((p1 "stock-sector").trans hS)
  rw [e2, except_bind_ok]
  have pres2 := fun i => (p2 i).trans (p1 i)
  unfold renderMetricCards
  obtain ⟨e3, p3, q3⟩ := write_step _ "metric-cards"
    (String.join ((detailCards data).map
      (fun c => detailCardDiv c.1 c.2.1 c.2.2.1 c.2.2.2)))
    ((pres2 "metric-cards").trans hM)
  rw [e3, except_bind_ok]
  have pres3 := fun i => (p3 i).trans (pres2 i)
  obtain ⟨ds, hds⟩ := detailDates_ok data ind ph hind hph
  rw [hds, except_bind_ok, detailCloses_ok data ph hph, except_bind_ok]
  rw [drawCandlestick_ok data _ ind ph hind hph
      ((pres3 "candlestick-chart").trans hC),
    except_bind_ok]
  obtain ⟨_e4, p4, q4⟩ := write_step _ "candlestick-chart"
    (candlestickMarkup ph ind) ((pres3 "candlestick-chart").trans hC)
  have pres4 := fun i => (p4 i).trans (pres3 i)
  rw [hind]
  simp only [Option.some_bind]
  unfold renderKeyStats
  rcases hrsi : ind.rsi with _ | r
  · rcases hmacd : ind.macd with _ | md
    · rcases hbol : ind.bollinger with _ | bb
      · obtain ⟨e7, p7, q7⟩ := write_step _ "key-stats" (keyStatsHTML data)
          ((pres4 "key-stats").trans hK)
        simp only [except_bind_ok, e7]
        refine ⟨_, rfl, fun _ => ?_, fun _ => ?_, fun _ => ?_⟩
        · rw [q7 "rsi-chart" (by decide), q4 "rsi-chart" (by decide),
            q3 "rsi-chart" (by decide), q2 "rsi-chart" (by decide),
            q1 "rsi-chart" (by decide)]
        · rw [q7 "macd-chart" (by decide), q4 "macd-chart" (by decide),
            q3 "macd-chart" (by decide), q2 "macd-chart" (by decide),
            q1 "macd-chart" (by decide)]
        · rw [q7 "bollinger-chart" (by decide), q4 "bollinger-chart" (by decide),
            q3 "bollinger-chart" (by decide), q2 "bollinger-chart" (by decide),
            q1 "bollinger-chart" (by decide)]
      · obtain ⟨_e6, p6, q6⟩ := write_step _ "bollinger-chart"
          (bollingerMarkup ds (ph.map Bar.close) bb)
          ((pres4 "bollinger-chart").trans hB)
        have pres6 := fun i => (p6 i).trans (pres4 i)
        obtain ⟨e7, p7, q7⟩ := write_step _ "key-stats" (keyStatsHTML data)
          ((pres6 "key-stats").trans hK)
        simp only [except_bind_ok,
          drawBollinger_ok ds (ph.map Bar.close) bb _
            ((pres4 "bollinger-chart").trans hB), e7]
        refine ⟨_, rfl, fun _ => ?_, fun _ => ?_, fun h => absurd h (by simp)⟩
        · rw [q7 "rsi-chart" (by decide), q6 "rsi-chart" (by decide),
            q4 "rsi-chart" (by decide), q3 "rsi-chart" (by decide),
            q2 "rsi-chart" (by decide), q1 "rsi-chart" (by decide)]
        · rw [q7 "macd-chart" (by decide), q6 "macd-chart" (by decide),
            q4 "macd-chart" (by decide), q3 "macd-chart" (by decide),
            q2 "macd-chart" (by decide), q1 "macd-chart" (by decide)]
    · obtain ⟨_e6, p6, q6⟩ := write_step _ "macd-chart" (macdMarkup ds md)
        ((pres4 "macd-chart").trans hMa)
      have pres6 := fun i => (p6 i).trans (pres4 i)
      rcases hbol : ind.bollinger with _ | bb
      · obtain ⟨e7, p7, q7⟩ := write_step _ "key-stats" (keyStatsHTML data)
          ((pres6 "key-stats").trans hK)
        simp only [except_bind_ok,
          drawMACD_ok ds md _ ((pres4 "macd-chart").trans hMa), e7]
        refine ⟨_, rfl, fun _ => ?_, fun h => absurd h (by simp), fun _ => ?_⟩
        · rw [q7 "rsi-chart" (by decide), q6 "rsi-chart" (by decide),
            q4 "rsi-chart" (by decide), q3 "rsi-chart" (by decide),
            q2 "rsi-chart" (by decide), q1 "rsi-chart" (by decide)]
        · rw [q7 "bollinger-chart" (by decide), q6 "bollinger-chart" (by decide),
            q4 "bollinger-chart" (by decide), q3 "bollinger-chart" (by decide),
            q2 "bollinger-chart" (by decide), q1 "bollinger-chart" (by decide)]
      · obtain ⟨_e6b, p6b, q6b⟩ := write_step _ "bollinger-chart"
          (bollingerMarkup ds (ph.map Bar.close) bb)
          ((pres6 "bollinger-chart").trans hB)
        have pres6b := fun i => (p6b i).trans (pres6 i)
        obtain ⟨e7, p7, q7⟩ := write_step _ "key-stats" (keyStatsHTML data)
          ((pres6b "key-stats").trans hK)
        simp only [except_bind_ok,
          drawMACD_ok ds md _ ((pres4 "macd-chart").trans hMa),
          drawBollinger_ok ds (ph.map Bar.close) bb _
            ((pres6 "bollinger-chart").trans hB), e7]
        refine ⟨_, rfl, fun _ => ?_, fun h => absurd h (by simp),
          fun h => absurd h (by simp)⟩
        rw [q7 "rsi-chart" (by decide), q6b "rsi-chart" (by decide),
          q6 "rsi-chart" (by decide), q4 "rsi-chart" (by decide),
          q3 "rsi-chart" (by decide), q2 "rsi-chart" (by decide),
          q1 "rsi-chart" (by decide)]
  · obtain ⟨_e5, p5, q5⟩ := write_step _ "rsi-chart" (rsiMarkup ds r)
      ((pres4 "rsi-chart").trans hR)
    have pres5 := fun i => (p5 i).trans (pres4 i)
    rcases hmacd : ind.macd with _ | md
    · rcases hbol : ind.bollinger with _ | bb
      · obtain ⟨e7, p7, q7⟩ := write_step _ "key-stats" (keyStatsHTML data)
          ((pres5 "key-stats").trans hK)
        simp only [except_bind_ok,
          drawRSI_ok ds r _ ((pres4 "rsi-chart").trans hR), e7]
        refine ⟨_, rfl, fun h => absurd h (by simp), fun _ => ?_, fun _ => ?_⟩
        · rw [q7 "macd-chart" (by decide), q5 "macd-chart" (by decide),
            q4 "macd-chart" (by decide), q3 "macd-chart" (by decide),
            q2 "macd-chart" (by decide), q1 "macd-chart" (by decide)]
        · rw [q7 "bollinger-chart" (by decide), q5 "bollinger-chart" (by decide),
            q4 "bollinger-chart" (by decide), q3 "bollinger-chart" (by decide),
            q2 "bollinger-chart" (by decide), q1 "bollinger-chart" (by decide)]
      · obtain ⟨_e6, p6, q6⟩ := write_step _ "bollinger-chart"
          (bollingerMarkup ds (ph.map Bar.close) bb)
          ((pres5 "bollinger-chart").trans hB)
        have pres6 := fun i => (p6 i).trans (pres5 i)
        obtain ⟨e7, p7, q7⟩ := write_step _ "key-stats" (keyStatsHTML data)
          ((pres6 "key-stats").trans hK)
        simp only [except_bind_ok,
          drawRSI_ok ds r _ ((pres4 "rsi-chart").trans hR),
          drawBollinger_ok ds (ph.map Bar.close) bb _
            ((pres5 "bollinger-chart").trans hB), e7]
        refine ⟨_, rfl, fun h => absurd h (by simp), fun _ => ?_,
          fun h => absurd h (by simp)⟩
        rw [q7 "macd-chart" (by decide), q6 "macd-chart" (by decide),
          q5 "macd-chart" (by decide), q4 "macd-chart" (by decide),
          q3 "macd-chart" (by decide), q2 "macd-chart" (by decide),
          q1 "macd-chart" (by decide)]
    · obtain ⟨_e6, p6, q6⟩ := write_step _ "macd-chart" (macdMarkup ds md)
        ((pres5 "macd-chart").trans hMa)
      have pres6 := fun i => (p6 i).trans (pres5 i)
      rcases hbol : ind.bollinger with _ | bb
      · obtain ⟨e7, p7, q7⟩ := write_step _ "key-stats" (keyStatsHTML data)
          ((pres6 "key-stats").trans hK)
        simp only [except_bind_ok,
          drawRSI_ok ds r _ ((pres4 "rsi-chart").trans hR),
          drawMACD_ok ds md _ ((pres5 "macd-chart").trans hMa), e7]
        refine ⟨_, rfl, fun h => absurd h (by simp),
          fun h => absurd h (by simp), fun _ => ?_⟩
        rw [q7 "bollinger-chart" (by decide), q6 "bollinger-chart" (by decide),
          q5 "bollinger-chart" (by decide), q4 "bollinger-chart" (by decide),
          q3 "bollinger-chart" (by decide), q2 "bollinger-chart" (by decide),
          q1 "bollinger-chart" (by decide)]
      · obtain ⟨_e6b, p6b, q6b⟩ := write_step _ "bollinger-chart"
          (bollingerMarkup ds (ph.map Bar.close) bb)
          ((pres6 "bollinger-chart").trans hB)
        have pres6b := fun i => (p6b i).trans (pres6 i)
        obtain ⟨e7, p7, q7⟩ := write_step _ "key-stats" (keyStatsHTML data)
          ((pres6b "key-stats").trans hK)
        simp only [except_bind_ok,
          drawRSI_ok ds r _ ((pres4 "rsi-chart").trans hR),
          drawMACD_ok ds md _ ((pres5 "macd-chart").trans hMa),
          drawBollinger_ok ds (ph.map Bar.close) bb _
            ((pres6 "bollinger-chart").trans hB), e7]
        exact ⟨_, rfl, fun h => absurd h (by simp),
          fun h => absurd h (by simp), fun h => absurd h (by simp)⟩

/-- Witness for the amended C6: a detail document whose `indicators` object
lacks all three of `rsi`, `macd` and `bollinger` renders on the full detail
page, leaving each of the three chart containers exactly as it was. -/
theorem C6_witness :
    docDatesOnly.indicators = some datesOnlyIndicators ∧
    docDatesOnly.priceHistory = some [sampleBar] ∧
    (∀ i ∈ ["stock-title", "stock-sector", "metric-cards",
        "candlestick-chart", "rsi-chart", "macd-chart", "bollinger-chart",
        "key-stats"], (domGet fullDetailDoc i).isSome) ∧
    ∃ doc2, detailInit docDatesOnly fullDetailDoc = .ok doc2 ∧
      (datesOnlyIndicators.rsi = none →
        domGet doc2 "rsi-chart" = domGet fullDetailDoc "rsi-chart") ∧
      (datesOnlyIndicators.macd = none →
        domGet doc2 "macd-chart" = domGet fullDetailDoc "macd-chart") ∧
      (datesOnlyIndicators.bollinger = none →
        domGet doc2 "bollinger-chart" = domGet fullDetailDoc "bollinger-chart") :=
  ⟨rfl, rfl, by decide,
    C6_missing_indicator_charts_skipped docDatesOnly fullDetailDoc
      datesOnlyIndicators [sampleBar] rfl rfl (by decide)⟩

end Nasdaq
